import Mathlib

/-!
Verification development for the keyword-metrics estimation and roadmap
assembly pipeline of the naver-place-optimizer backend.

The Python sources are shallowly embedded: pure functions become Lean
functions over ℤ/ℚ (Python `int()` of a non-negative float is modelled as
the exact rational truncated toward zero), external calls (the Naver search
ad API, the MOIS population registry, the regional restaurant-statistics
CSV, the JSON category catalog) become explicit oracle parameters holding
the outcome the surrounding `try/except` code distinguishes, and code that
can raise to its caller returns `Except PyError`.
-/

namespace NPO

/-- Python `int()` applied to an exact rational value: truncation toward zero. -/
def pyInt (q : ℚ) : ℤ := if 0 ≤ q then ⌊q⌋ else ⌈q⌉

/-- Python's `sub in s` substring test on strings (empty needle always matches). -/
def pyIn (sub s : String) : Bool := decide (List.IsInfix sub.toList s.toList)

/-- Counts maximal non-whitespace runs; `inWord` records whether the previous
character was part of a word. -/
def wordCountAux (inWord : Bool) : List Char → ℕ
  | [] => 0
  | c :: cs =>
    if c.isWhitespace then wordCountAux false cs
    else (if inWord then 0 else 1) + wordCountAux true cs

/-- Number of words of Python `len(s.split())`: whitespace-separated maximal
runs, empty pieces dropped. -/
def wordCount (s : String) : ℕ := wordCountAux false s.toList

/-! ## Region population resolver (integrations/mois_population_api.py) -/

/-- Curated population table `DEFAULT_POPULATION` (mois_population_api.py:124). -/
def DEFAULT_POPULATION : List (String × Int) := [
  ("서울 강남구", 560000),
  ("서울 서초구", 420000),
  ("서울 송파구", 660000),
  ("서울 강동구", 450000),
  ("서울 강서구", 580000),
  ("서울 양천구", 470000),
  ("서울 영등포구", 390000),
  ("서울 구로구", 420000),
  ("서울 금천구", 240000),
  ("서울 관악구", 510000),
  ("서울 동작구", 400000),
  ("서울 마포구", 380000),
  ("서울 서대문구", 320000),
  ("서울 은평구", 490000),
  ("서울 노원구", 550000),
  ("서울 도봉구", 340000),
  ("서울 강북구", 320000),
  ("서울 성북구", 460000),
  ("서울 중랑구", 410000),
  ("서울 동대문구", 360000),
  ("서울 광진구", 360000),
  ("서울 성동구", 310000),
  ("서울 용산구", 240000),
  ("서울 중구", 130000),
  ("서울 종로구", 160000),
  ("부산 해운대구", 410000),
  ("부산 부산진구", 380000),
  ("부산 북구", 300000),
  ("부산 사상구", 230000),
  ("부산 사하구", 330000),
  ("부산 동래구", 270000),
  ("부산 남구", 280000),
  ("부산 연제구", 210000),
  ("부산 수영구", 180000),
  ("부산 금정구", 250000),
  ("부산 강서구", 140000),
  ("부산 동구", 95000),
  ("부산 서구", 110000),
  ("부산 영도구", 120000),
  ("부산 중구", 45000),
  ("부산 기장군", 180000),
  ("대구 수성구", 420000),
  ("대구 달서구", 580000),
  ("대구 북구", 440000),
  ("대구 동구", 340000),
  ("대구 서구", 210000),
  ("대구 남구", 160000),
  ("대구 중구", 80000),
  ("대구 달성군", 260000),
  ("인천 남동구", 520000),
  ("인천 부평구", 510000),
  ("인천 서구", 550000),
  ("인천 계양구", 320000),
  ("인천 연수구", 340000),
  ("인천 미추홀구", 410000),
  ("인천 동구", 70000),
  ("인천 중구", 140000),
  ("인천 강화군", 70000),
  ("인천 옹진군", 22000),
  ("광주 북구", 450000),
  ("광주 서구", 310000),
  ("광주 남구", 220000),
  ("광주 동구", 95000),
  ("광주 광산구", 390000),
  ("대전 유성구", 350000),
  ("대전 서구", 480000),
  ("대전 중구", 250000),
  ("대전 동구", 230000),
  ("대전 대덕구", 210000),
  ("울산 남구", 340000),
  ("울산 북구", 210000),
  ("울산 동구", 170000),
  ("울산 중구", 230000),
  ("울산 울주군", 230000),
  ("세종", 380000),
  ("경기 수원시", 1200000),
  ("경기 성남시", 950000),
  ("경기 고양시", 1050000),
  ("경기 용인시", 1080000),
  ("경기 부천시", 820000),
  ("경기 안산시", 660000),
  ("경기 안양시", 550000),
  ("경기 남양주시", 720000),
  ("경기 화성시", 950000),
  ("경기 평택시", 580000),
  ("경기 의정부시", 460000),
  ("경기 시흥시", 490000),
  ("경기 파주시", 480000),
  ("경기 김포시", 520000),
  ("경기 광명시", 280000),
  ("경기 광주시", 420000),
  ("경기 군포시", 280000),
  ("경기 하남시", 300000),
  ("경기 오산시", 230000),
  ("경기 양주시", 230000),
  ("경기 이천시", 220000),
  ("경기 구리시", 190000),
  ("경기 안성시", 190000),
  ("경기 포천시", 150000),
  ("경기 의왕시", 160000),
  ("경기 여주시", 110000),
  ("경기 동두천시", 95000),
  ("경기 과천시", 56000),
  ("강원 춘천시", 280000),
  ("강원 원주시", 360000),
  ("강원 강릉시", 210000),
  ("강원 동해시", 92000),
  ("강원 태백시", 42000),
  ("강원 속초시", 82000),
  ("강원 삼척시", 65000),
  ("충북 청주시", 850000),
  ("충북 충주시", 210000),
  ("충북 제천시", 135000),
  ("충남 천안시", 680000),
  ("충남 아산시", 330000),
  ("충남 서산시", 180000),
  ("충남 논산시", 120000),
  ("충남 계룡시", 46000),
  ("충남 당진시", 170000),
  ("전북 전주시", 660000),
  ("전북 익산시", 280000),
  ("전북 군산시", 270000),
  ("전북 정읍시", 110000),
  ("전북 남원시", 82000),
  ("전북 김제시", 85000),
  ("전남 목포시", 230000),
  ("전남 여수시", 280000),
  ("전남 순천시", 280000),
  ("전남 나주시", 120000),
  ("전남 광양시", 160000),
  ("경북 포항시", 500000),
  ("경북 경주시", 250000),
  ("경북 구미시", 410000),
  ("경북 김천시", 140000),
  ("경북 안동시", 160000),
  ("경북 경산시", 280000),
  ("경남 창원시", 1040000),
  ("경남 김해시", 560000),
  ("경남 진주시", 340000),
  ("경남 양산시", 360000),
  ("경남 거제시", 260000),
  ("경남 통영시", 130000),
  ("경남 사천시", 115000),
  ("경남 밀양시", 105000),
  ("제주 제주시", 490000),
  ("제주 서귀포시", 190000)]

/-- `get_region_population` (mois_population_api.py:307): curated table first,
then the external registry, then the fixed 300,000 fallback. The registry call
is modelled by `moisConfigured` (an API key is set, the `if api_key or
os.getenv(...)` guard) and `moisResult` (the return value of
`MOISPopulationAPI.get_population`, whose body catches every exception and
returns `None` on a network failure, a non-200 status, a non-"00" result code,
a malformed response or a missing row). -/
def get_region_population (moisConfigured : Bool) (moisResult : Option ℤ)
    (region : String) : ℤ × String :=
  match DEFAULT_POPULATION.lookup region with
  | some p => (p, "population_db")
  | none =>
    if moisConfigured then
      match moisResult with
      | some p => (p, "population_api")
      | none => (300000, "population_estimated")
    else (300000, "population_estimated")

/-- `get_population_grade` (mois_population_api.py:340). -/
def get_population_grade (population : ℤ) : String :=
  if population ≥ 500000 then "estimated_b"
  else if population ≥ 200000 then "estimated_c"
  else if population ≥ 100000 then "estimated_d"
  else if population ≥ 50000 then "estimated_e"
  else "estimated_f"

/-! ## Category catalog (config/category_loader.py) -/

/-- The numeric rates the estimators read from one JSON category record; a
`none` field models a record without that key (the code reads each with
`.get(key, default)`). -/
structure CategoryData where
  usage_rate : Option ℚ
  search_rate : Option ℚ
  conversion_rate : Option ℚ
deriving DecidableEq

/-- The read-only external world an estimation batch consults. `getCategory`
models `CategoryLoader.get_category` (config/category_loader.py:30), which
returns the parsed JSON record or `None` when the file is absent or malformed. -/
structure Env where
  moisConfigured : Bool
  moisResult : Option ℤ
  getCategory : String → Option CategoryData

/-! ## Volume estimator (services/search_volume_estimator.py) -/

/-- One parsed ad-API row (`parse_keyword_data`, naver_search_ad_api.py:171):
the two fields the volume estimator consumes. -/
structure ApiData where
  pc : ℤ
  mobile : ℤ
deriving DecidableEq

/-- `monthly_total_searches` is computed as pc + mobile by `parse_keyword_data`. -/
def ApiData.total (d : ApiData) : ℤ := d.pc + d.mobile

/-- Outcome of one `get_keyword_stats([keyword])` attempt, as the four cases
`_get_from_api` (search_volume_estimator.py:91) distinguishes: a usable parsed
row, an empty response list, a parse that returned `None` (a low-volume row),
or an exception caught by the `except` branch. -/
inductive ApiAttempt
  | ok (d : ApiData)
  | emptyResponse
  | parsedNone
  | excn
deriving DecidableEq

/-- Whether an attempt yielded a usable parsed row. -/
def ApiAttempt.isOk : ApiAttempt → Bool
  | .ok _ => true
  | _ => false

/-- `_get_from_api` (search_volume_estimator.py:91): the batch cache is
consulted first; otherwise `2 if retry else 1` attempts are made. A successful
parse returns immediately; with `retry` every first-attempt failure (empty
response, low-volume parse, exception) falls through to a second attempt;
without `retry` the single failed attempt yields `None`. -/
def getFromApi (cache : Option ApiData) (attempts : ℕ → ApiAttempt)
    (retry : Bool) : Option ApiData :=
  match cache with
  | some d => some d
  | none =>
    match retry, attempts 0 with
    | _, .ok d => some d
    | false, _ => none
    | true, _ =>
      match attempts 1 with
      | .ok d => some d
      | _ => none

/-- Number of `get_keyword_stats` calls `_get_from_api` makes: none on a cache
hit, one when the first attempt succeeds or no retry is requested, two
otherwise. -/
def getFromApiCalls (cache : Option ApiData) (attempts : ℕ → ApiAttempt)
    (retry : Bool) : ℕ :=
  match cache with
  | some _ => 0
  | none =>
    match retry, attempts 0 with
    | _, .ok _ => 1
    | false, _ => 1
    | true, _ => 2

/-- A pc/mobile field of a volume result: a number, the literal string "Fail",
or Python `None` — the three shapes estimate_monthly_searches produces. -/
inductive PMField
  | num (n : ℤ)
  | failTag
  | noneTag
deriving DecidableEq

/-- The dict returned by `estimate_monthly_searches`. -/
structure VolumeResult where
  total : ℤ
  pc : PMField
  mobile : PMField
  source : String
deriving DecidableEq

/-- `_estimate_from_population` (search_volume_estimator.py:137):
population × usage_rate × search_rate / 12, truncated; the grade is the
population-band grade only when the resolver fell back to the estimated
population, else "estimated". -/
def estimateFromPopulation (env : Env) (location category : String) : ℤ × String :=
  let pr := get_region_population env.moisConfigured env.moisResult location
  let usage : ℚ :=
    match env.getCategory category with
    | some c => c.usage_rate.getD (1/2)
    | none => 1/2
  let search : ℚ :=
    match env.getCategory category with
    | some c => c.search_rate.getD (3/10)
    | none => 3/10
  let monthly := pyInt ((pr.1 : ℚ) * usage * search / 12)
  let grade :=
    if pr.2 = "population_estimated" then get_population_grade pr.1 else "estimated"
  (monthly, grade)

/-- `estimate_monthly_searches` (search_volume_estimator.py:19). With
`forceApi` (the engine passes `level <= 2`) the ad API is tried with retry;
on failure level 1 gets the fixed 10,000 floor with source
"restaurant_stats_fallback" and level 2 the population estimate, both with
pc/mobile = "Fail". Without `forceApi` the population estimate is used
directly, pc/mobile = None. -/
def estimateMonthlySearches (env : Env) (location category : String)
    (cache : Option ApiData) (attempts : ℕ → ApiAttempt)
    (level : ℤ) (forceApi : Bool) : VolumeResult :=
  if forceApi then
    match getFromApi cache attempts true with
    | some d => ⟨d.total, .num d.pc, .num d.mobile, "api"⟩
    | none =>
      if level = 1 then ⟨10000, .failTag, .failTag, "restaurant_stats_fallback"⟩
      else
        let e := estimateFromPopulation env location category
        ⟨e.1, .failTag, .failTag, e.2⟩
  else
    let e := estimateFromPopulation env location category
    ⟨e.1, .noneTag, .noneTag, e.2⟩

/-- Number of ad-API calls `estimate_monthly_searches` makes: zero when
`forceApi` is false (the population path does not touch the API). -/
def estimateMonthlySearchesCalls (cache : Option ApiData)
    (attempts : ℕ → ApiAttempt) (forceApi : Bool) : ℕ :=
  if forceApi then getFromApiCalls cache attempts true else 0

/-- Tier multiplier table of `apply_level_multiplier`
(search_volume_estimator.py:170), default 0.1. -/
def levelMultiplier (level : ℤ) : ℚ :=
  if level = 5 then 1/100
  else if level = 4 then 5/100
  else if level = 3 then 15/100
  else if level = 2 then 40/100
  else if level = 1 then 1
  else 1/10

/-- `apply_level_multiplier` (search_volume_estimator.py:170). -/
def applyLevelMultiplier (base : ℤ) (level : ℤ) : ℤ :=
  pyInt ((base : ℚ) * levelMultiplier level)

/-! ## Competition analyzer (services/competition_analyzer.py) -/

/-- The two fields of a regional restaurant-statistics row the analyzer reads
(restaurant_stats_loader.py:41, keys 총_음식점수 and 경쟁강도_0to100). The CSV
contents are data, not code; a concrete row or a miss enters as an oracle. -/
structure StatsData where
  restaurantCount : ℤ
  intensity : ℚ
deriving DecidableEq

/-- Allow-list of `is_supported_category` (restaurant_stats_loader.py:149). -/
def foodCategories : List String :=
  ["음식점", "카페", "맛집", "레스토랑", "식당", "베이커리", "디저트"]

/-- `is_supported_category` (restaurant_stats_loader.py:139): some allow-listed
name occurs in the category string. -/
def isSupportedCategory (category : String) : Bool :=
  foodCategories.any (fun f => pyIn f category)

/-- Tier reduction table of `_adjust_competition_by_keyword`
(competition_analyzer.py:182), default 0.25. -/
def levelReduction (level : ℤ) : ℚ :=
  if level = 1 then 0
  else if level = 2 then 10/100
  else if level = 3 then 25/100
  else if level = 4 then 40/100
  else if level = 5 then 60/100
  else 25/100

/-- Word-count factor of `_adjust_competition_by_keyword`: ×0.85 for ≥ 6
words, ×0.90 for ≥ 4 words, else unchanged. -/
def wordFactor (keyword : String) : ℚ :=
  if wordCount keyword ≥ 6 then 85/100
  else if wordCount keyword ≥ 4 then 90/100
  else 1

/-- `_adjust_competition_by_keyword` (competition_analyzer.py:153): scale the
base by the tier and word-count factors, truncate, clamp into [5,100]. -/
def adjustCompetitionByKeyword (base : ℤ) (keyword : String) (level : ℤ) : ℤ :=
  let adjusted : ℚ := (base : ℚ) * (1 - levelReduction level) * wordFactor keyword
  max 5 (min 100 (pyInt adjusted))

/-- `_estimate_competition` (competition_analyzer.py:207): 50/"estimated" for an
empty location, else a population-band base score with the same grade rule as
the volume side. -/
def estimateCompetition (env : Env) (location _category : String) : ℤ × String :=
  if location = "" then (50, "estimated")
  else
    let pr := get_region_population env.moisConfigured env.moisResult location
    let base : ℤ :=
      if pr.1 ≥ 500000 then 30
      else if pr.1 ≥ 200000 then 40
      else if pr.1 ≥ 100000 then 50
      else if pr.1 ≥ 50000 then 60
      else 70
    let grade :=
      if pr.2 = "population_estimated" then get_population_grade pr.1 else "estimated"
    (base, grade)

/-- `_level_to_score` (competition_analyzer.py:247); the argument is the value
of the parsed row's competition_level key, which may be absent/None (default
60). -/
def levelToScore (lvl : Option String) : ℤ :=
  match lvl with
  | some "높음" => 85
  | some "중간" => 60
  | some "낮음" => 30
  | _ => 60

/-- `_score_to_level` (competition_analyzer.py:264). -/
def scoreToLevel (score : ℤ) : String :=
  if score ≥ 70 then "높음"
  else if score ≥ 40 then "중간"
  else "낮음"

/-- The dict returned by `analyze_competition`; competition_level is an
`Option String` because on the ad-API path the parsed value (possibly None) is
stored verbatim. -/
structure CompetitionResult where
  result_count : ℤ
  competition_score : ℤ
  competition_level : Option String
  data_source : String
deriving DecidableEq

/-- `analyze_competition` (competition_analyzer.py:21). `stats` is the outcome
of `restaurant_stats.get_competition(location)` (a row or a miss); `adResult`
is the outcome of `_get_ad_competition_data` — `none` for the empty dict it
returns when the ad call fails or yields no row, `some lvl` for a dict carrying
a competition_level value. The `if category and location` guards are Python
truthiness on the two strings. -/
def analyzeCompetition (env : Env) (keyword location category : String)
    (level : ℤ) (fetchNaverResults : Bool) (stats : Option StatsData)
    (adResult : Option (Option String)) : CompetitionResult :=
  let statsHit : Option StatsData :=
    if category ≠ "" ∧ location ≠ "" ∧ isSupportedCategory category then stats else none
  let estimatedResult : CompetitionResult :=
    let e := estimateCompetition env location category
    let adj := adjustCompetitionByKeyword e.1 keyword level
    ⟨0, adj, some (scoreToLevel adj), e.2⟩
  if fetchNaverResults = false then
    match statsHit with
    | some sd =>
      let adj := adjustCompetitionByKeyword (pyInt sd.intensity) keyword level
      ⟨0, adj, some (scoreToLevel adj), "restaurant_stats"⟩
    | none => estimatedResult
  else
    match adResult with
    | some lvl => ⟨0, levelToScore lvl, lvl, "api"⟩
    | none =>
      match statsHit with
      | some sd =>
        let adj := adjustCompetitionByKeyword (pyInt sd.intensity) keyword level
        ⟨sd.restaurantCount, adj, some (scoreToLevel adj), "restaurant_stats"⟩
      | none =>
        if level = 1 then
          let adj := adjustCompetitionByKeyword 85 keyword level
          ⟨0, adj, some (scoreToLevel adj), "restaurant_stats_fallback"⟩
        else estimatedResult

/-- `calculate_difficulty_score` (competition_analyzer.py:273). -/
def calculateDifficultyScore (competitionScore level searchVolume : ℤ) : ℤ :=
  let levelScore : ℤ := 100 - level * 20
  let volumeScore : ℚ := min 100 ((searchVolume : ℚ) / 10000 * 100)
  let difficulty :=
    pyInt ((competitionScore : ℚ) * (6/10) + (levelScore : ℚ) * (3/10) + volumeScore * (1/10))
  min 100 (max 0 difficulty)

/-! ## Metrics assembler (engine_v3.py) -/

/-- The source→priority dict of `analyze_keyword` (engine_v3.py:180), read with
`.get(source, 0)`. -/
def sourcePriority (source : String) : ℤ :=
  if source = "api" then 6
  else if source = "restaurant_stats" then 5
  else if source = "restaurant_stats_fallback" then 5
  else if source = "estimated" then 4
  else if source = "estimated_b" then 3
  else if source = "estimated_c" then 2
  else if source = "estimated_d" then 1
  else if source = "estimated_e" then 0
  else if source = "estimated_f" then 0
  else 0

/-- The final-grade arbitration of `analyze_keyword` (engine_v3.py:196): the
volume-source label when its priority is strictly lower, else the
competition-source label. -/
def finalDataSource (volumeSource competitionSource : String) : String :=
  if sourcePriority volumeSource < sourcePriority competitionSource then volumeSource
  else competitionSource

/-- `get_rank_target` (strategy_planner.py:488): (rank target, timeline,
traffic conversion rate), default ("Top 10", "2개월", 0.10). -/
def getRankTarget (level : ℤ) : String × String × ℚ :=
  if level = 5 then ("Top 1-3", "1-2주", 25/100)
  else if level = 4 then ("Top 5", "1개월", 15/100)
  else if level = 3 then ("Top 10", "2-3개월", 10/100)
  else if level = 2 then ("Top 20", "6개월", 5/100)
  else if level = 1 then ("노출 목표", "장기", 2/100)
  else ("Top 10", "2개월", 10/100)

/-- The `KeywordMetrics` dataclass (models/keyword.py:19), restricted to the
fields `analyze_keyword` fills (the remaining optional API fields stay None). -/
structure KeywordMetrics where
  keyword : String
  level : ℤ
  estimated_monthly_searches : ℤ
  competition_score : ℤ
  naver_result_count : ℤ
  difficulty_score : ℤ
  recommended_rank_target : String
  estimated_timeline : String
  estimated_traffic : ℤ
  conversion_rate : ℚ
  data_source : String
  monthly_pc_searches : PMField
  monthly_mobile_searches : PMField
deriving DecidableEq

/-- `UnifiedKeywordEngine.analyze_keyword` (engine_v3.py:115): volume
estimation (forceApi = level ≤ 2), level multiplier, competition analysis
(fetchNaverResults = level ≤ 2), difficulty, rank target, traffic projection,
and the lowest-confidence-wins grade arbitration. -/
def analyzeKeyword (env : Env) (keyword : String) (level : ℤ)
    (location category : String)
    (volCache : Option ApiData) (volAttempts : ℕ → ApiAttempt)
    (stats : Option StatsData) (adResult : Option (Option String)) : KeywordMetrics :=
  let volumeData :=
    estimateMonthlySearches env location category volCache volAttempts level
      (decide (level ≤ 2))
  let estimatedSearches := applyLevelMultiplier volumeData.total level
  let competitionData :=
    analyzeCompetition env keyword location category level (decide (level ≤ 2))
      stats adResult
  let difficultyScore :=
    calculateDifficultyScore competitionData.competition_score level estimatedSearches
  let rt := getRankTarget level
  let conversionRate : ℚ :=
    match env.getCategory category with
    | some c => c.conversion_rate.getD (8/100)
    | none => 8/100
  let conversion := conversionRate * rt.2.2
  let estimatedDailyTraffic := pyInt ((estimatedSearches : ℚ) / 30 * conversion)
  { keyword := keyword
    level := level
    estimated_monthly_searches := estimatedSearches
    competition_score := competitionData.competition_score
    naver_result_count := competitionData.result_count
    difficulty_score := difficultyScore
    recommended_rank_target := rt.1
    estimated_timeline := rt.2.1
    estimated_traffic := estimatedDailyTraffic
    conversion_rate := conversion
    data_source := finalDataSource volumeData.source competitionData.data_source
    monthly_pc_searches := volumeData.pc
    monthly_mobile_searches := volumeData.mobile }

/-! ## Roadmap planner (services/strategy_planner.py, models/strategy.py) -/

/-- The `StrategyPhase` dataclass (models/strategy.py:11). The field
`expected_daily_visitors` (line 21) is required: it has no default and every
later field does, so a constructor call must supply it. The nine V5
receipt-review presentation fields (all defaulted strings/dicts/lists of
guidance text) are not modelled; no claim mentions them. -/
structure StrategyPhase where
  phase : ℤ
  name : String
  duration : String
  target_level : ℤ
  target_keywords_count : ℤ
  strategies : List String
  goals : List String
  expected_daily_visitors : ℤ
  priority_keywords : List String
  keyword_traffic_breakdown : List (String × ℤ)
  difficulty_level : String
  cumulative_visitors : ℤ
deriving DecidableEq

/-- A Python exception escaping to the caller. -/
inductive PyError
  | typeError (missingArgument : String)
  | keyError
deriving DecidableEq

/-- Every `StrategyPhase(...)` call in services/strategy_planner.py — the
dynamic-roadmap call at line 150 and the five legacy-roadmap calls at lines
185/221/241/261/281 — passes no value for the required dataclass field
`expected_daily_visitors` (models/strategy.py:21), so in Python the
constructor raises `TypeError: __init__() missing 1 required positional
argument: 'expected_daily_visitors'` before any phase object exists. The
embedding models each of those call sites by this failing constructor. -/
def mkPhaseMissingRequired : Except PyError StrategyPhase :=
  .error (.typeError "expected_daily_visitors")

/-- ROI score of `_select_priority_keywords` (strategy_planner.py:322):
traffic / max(difficulty, 1), doubled when a truthy specialty string occurs in
the keyword (`if specialty and specialty in kw.keyword`). -/
def roiScore (specialty : Option String) (kw : KeywordMetrics) : ℚ :=
  let roi : ℚ := (kw.estimated_traffic : ℚ) / ((max kw.difficulty_score 1 : ℤ) : ℚ)
  match specialty with
  | some s => if s ≠ "" ∧ pyIn s kw.keyword then roi * 2 else roi
  | none => roi

/-- Descending order on scored keywords: `a` may precede `b` when `a`'s score
is at least `b`'s. Insertion sort under this order is the stable descending
sort Python's `sort(key=lambda x: x[1], reverse=True)` performs at
strategy_planner.py:331 (an earlier element precedes a later one of equal
score). -/
def scoredDescOrder (a b : KeywordMetrics × ℚ) : Prop := b.2 ≤ a.2

instance : DecidableRel scoredDescOrder :=
  fun a b => inferInstanceAs (Decidable (b.2 ≤ a.2))

instance : IsTotal (KeywordMetrics × ℚ) scoredDescOrder :=
  ⟨fun a b => le_total b.2 a.2⟩

instance : IsTrans (KeywordMetrics × ℚ) scoredDescOrder :=
  ⟨fun _ _ _ h1 h2 => le_trans h2 h1⟩

/-- `_select_priority_keywords` (strategy_planner.py:302): score every
keyword, sort by descending ROI (stable), keep the first `topN`. -/
def selectPriorityKeywords (keywords : List KeywordMetrics) (topN : ℕ)
    (specialty : Option String) : List KeywordMetrics :=
  let scored := keywords.map (fun kw => (kw, roiScore specialty kw))
  ((List.insertionSort scoredDescOrder scored).take topN).map Prod.fst

/-- The tier order of the dynamic-roadmap loop (strategy_planner.py:111). -/
def roadmapLevels : List ℤ := [5, 4, 3, 2, 1]

/-- The per-tier loop of `_generate_dynamic_roadmap` (strategy_planner.py:111):
an empty tier is skipped; a populated tier reaches the `StrategyPhase(...)`
construction at line 150, which raises (see `mkPhaseMissingRequired`). -/
def roadmapPhasesLoop (byLevel : ℤ → List KeywordMetrics)
    (specialty : Option String) : List ℤ → Except PyError (List StrategyPhase)
  | [] => .ok []
  | l :: rest =>
    match byLevel l with
    | [] => roadmapPhasesLoop byLevel specialty rest
    | kws =>
      let _priorityKws := selectPriorityKeywords kws 5 specialty
      do
        let phase ← mkPhaseMissingRequired
        let restPhases ← roadmapPhasesLoop byLevel specialty rest
        pure (phase :: restPhases)

/-- `_generate_dynamic_roadmap` (strategy_planner.py:64): the grouping loop
(line 84) indexes `keywords_by_level[kw.level]` into a dict whose keys are
exactly 1..5, so a keyword with any other level raises KeyError; otherwise
the per-tier loop runs over 5,4,3,2,1. -/
def generateDynamicRoadmap (_gap : ℤ) (analyzedKeywords : List KeywordMetrics)
    (specialty : Option String) : Except PyError (List StrategyPhase) :=
  if analyzedKeywords.all (fun kw => decide (1 ≤ kw.level ∧ kw.level ≤ 5)) then
    roadmapPhasesLoop (fun l => analyzedKeywords.filter (fun kw => kw.level = l))
      specialty roadmapLevels
  else .error .keyError

/-- `_generate_legacy_roadmap` (strategy_planner.py:177): five fixed
`StrategyPhase(...)` constructions, the first of which (line 185) already
raises for the same missing required argument. -/
def generateLegacyRoadmap (_gap : ℤ) : Except PyError (List StrategyPhase) := do
  let p1 ← mkPhaseMissingRequired
  let p2 ← mkPhaseMissingRequired
  let p3 ← mkPhaseMissingRequired
  let p4 ← mkPhaseMissingRequired
  let p5 ← mkPhaseMissingRequired
  pure [p1, p2, p3, p4, p5]

/-- `generate_roadmap` (strategy_planner.py:35): a truthy (non-empty)
`analyzed_keywords` list routes to the dynamic roadmap, else the legacy one. -/
def generateRoadmap (currentDailyVisitors targetDailyVisitors : ℤ)
    (analyzedKeywords : List KeywordMetrics) (specialty : Option String) :
    Except PyError (List StrategyPhase) :=
  let gap := targetDailyVisitors - currentDailyVisitors
  if analyzedKeywords = [] then generateLegacyRoadmap gap
  else generateDynamicRoadmap gap analyzedKeywords specialty

/-! ## Comparison definition from the specification text -/

/-- Modelled from the spec: §4.5's difficulty formula
`clamp(competition*0.6 + (100 - tier*20)*0.3 + min(100, volume/10000*100)*0.1,
0, 100)` read as exact rational arithmetic, for comparison with the code's
`calculateDifficultyScore`. -/
def specDifficultyFormula (c t v : ℚ) : ℚ :=
  min 100 (max 0 (c * (6/10) + (100 - t * 20) * (3/10) + (min 100 (v / 10000 * 100)) * (1/10)))

/-! ## Concrete fixtures -/

/-- An environment with no MOIS key configured and an empty category catalog. -/
def env0 : Env := ⟨false, none, fun _ => none⟩

/-- An ad-API oracle whose every attempt returns an empty response list. -/
def noApiAttempts : ℕ → ApiAttempt := fun _ => .emptyResponse

/-- A regional statistics row: 1500 restaurants, competition intensity 70. -/
def statsRow0 : StatsData := ⟨1500, 70⟩

/-- Tier-3 phrase with traffic 40 and difficulty 20 (ROI 2.0). -/
def kmA : KeywordMetrics :=
  ⟨"참치 전문", 3, 100, 50, 0, 20, "Top 10", "2-3개월", 40, 1/100, "estimated", .noneTag, .noneTag⟩

/-- Tier-3 phrase with traffic 10 and difficulty 50 (ROI 0.2). -/
def kmB : KeywordMetrics :=
  ⟨"연어 전문", 3, 100, 50, 0, 50, "Top 10", "2-3개월", 10, 1/100, "estimated", .noneTag, .noneTag⟩

/-- A tier-5 phrase for exercising the roadmap generator. -/
def kmLongtail : KeywordMetrics :=
  ⟨"조용한 골목 카페", 5, 150, 20, 0, 12, "Top 1-3", "1-2주", 25, 1/100, "estimated", .noneTag, .noneTag⟩

/-! ## Helper lemmas -/

lemma pyInt_of_nonneg {q : ℚ} (h : 0 ≤ q) : pyInt q = ⌊q⌋ := if_pos h

lemma levelReduction_nonneg (level : ℤ) : 0 ≤ levelReduction level := by
  unfold levelReduction; split_ifs <;> norm_num

lemma levelReduction_le_one (level : ℤ) : levelReduction level ≤ 1 := by
  unfold levelReduction; split_ifs <;> norm_num

lemma wordFactor_nonneg (k : String) : 0 ≤ wordFactor k := by
  unfold wordFactor; split_ifs <;> norm_num

lemma wordFactor_le_one (k : String) : wordFactor k ≤ 1 := by
  unfold wordFactor; split_ifs <;> norm_num

/-- The resolver produces the tag "population_estimated" only together with
the fixed fallback population 300,000. -/
lemma pop_estimated_forces_default (conf : Bool) (res : Option ℤ) (region : String)
    (h : (get_region_population conf res region).2 = "population_estimated") :
    (get_region_population conf res region).1 = 300000 := by
  unfold get_region_population at h ⊢
  cases hl : DEFAULT_POPULATION.lookup region with
  | some p => rw [hl] at h; simp at h
  | none =>
    rw [hl] at h
    cases conf with
    | false => rfl
    | true =>
      cases res with
      | some p => simp at h
      | none => rfl

/-- Volume fallback for a tier-1 phrase whose forced API lookup failed. -/
lemma estimateMonthlySearches_apiFail_level1 (env : Env) (location category : String)
    (cache : Option ApiData) (attempts : ℕ → ApiAttempt)
    (h : getFromApi cache attempts true = none) :
    estimateMonthlySearches env location category cache attempts 1 true =
      ⟨10000, .failTag, .failTag, "restaurant_stats_fallback"⟩ := by
  simp [estimateMonthlySearches, h]

/-- Competition fallback for a tier-1 phrase with no ad data and no
statistics row. -/
lemma analyzeCompetition_level1_fallback (env : Env) (keyword location category : String) :
    analyzeCompetition env keyword location category 1 true none none =
      ⟨0, adjustCompetitionByKeyword 85 keyword 1,
       some (scoreToLevel (adjustCompetitionByKeyword 85 keyword 1)),
       "restaurant_stats_fallback"⟩ := by
  simp [analyzeCompetition, ite_self]

/-- The tier-1 adjustment of the fixed base 85 depends only on the word count. -/
lemma adjust85_level1 (keyword : String) :
    adjustCompetitionByKeyword 85 keyword 1 =
      (if wordCount keyword ≥ 6 then 72 else if wordCount keyword ≥ 4 then 76 else 85) := by
  unfold adjustCompetitionByKeyword wordFactor
  rw [show levelReduction 1 = 0 from rfl]
  split_ifs <;> norm_num [pyInt]

/-! ## Claim C1 -/

/-- C1 counterexample: a tier-1 phrase whose volume source is the fallback
label "restaurant_stats_fallback" (priority 5) while its competition source is
the regional-statistics label "restaurant_stats" (also priority 5). The two
priorities are equal, yet the assembled metrics record keeps the
competition-source label, not the volume-source label the claim requires. -/
theorem c1_counterexample :
    (estimateMonthlySearches env0 "서울 강남구" "카페" none noApiAttempts 1
        (decide ((1:ℤ) ≤ 2))).source = "restaurant_stats_fallback" ∧
    (analyzeCompetition env0 "강남맛집" "서울 강남구" "카페" 1 (decide ((1:ℤ) ≤ 2))
        (some statsRow0) none).data_source = "restaurant_stats" ∧
    sourcePriority "restaurant_stats_fallback" = sourcePriority "restaurant_stats" ∧
    (analyzeKeyword env0 "강남맛집" 1 "서울 강남구" "카페" none noApiAttempts
        (some statsRow0) none).data_source ≠ "restaurant_stats_fallback" := by
  refine ⟨rfl, rfl, rfl, ?_⟩
  intro h
  exact absurd (rfl.trans h) (by decide)

/-- C1 (amended): the metrics assembler's final confidence label is the
volume-source label when its priority is strictly lower under the fixed
ordering, and the competition-source label otherwise — so on equal priorities
the competition-source label is kept, not the volume-source label. The final
priority always equals the minimum of the two priorities and is therefore
unchanged when the two sources are swapped (the label itself need not be), and
`analyze_keyword` stores exactly this arbitration of its two component
sources. -/
theorem c1_grade_arbitration :
    (∀ vs cs : String,
      sourcePriority (finalDataSource vs cs) = min (sourcePriority vs) (sourcePriority cs) ∧
      (sourcePriority vs < sourcePriority cs → finalDataSource vs cs = vs) ∧
      (sourcePriority cs ≤ sourcePriority vs → finalDataSource vs cs = cs) ∧
      sourcePriority (finalDataSource vs cs) = sourcePriority (finalDataSource cs vs)) ∧
    (∀ (env : Env) (keyword : String) (level : ℤ) (location category : String)
        (volCache : Option ApiData) (volAttempts : ℕ → ApiAttempt)
        (stats : Option StatsData) (adResult : Option (Option String)),
      (analyzeKeyword env keyword level location category volCache volAttempts
          stats adResult).data_source
        = finalDataSource
            (estimateMonthlySearches env location category volCache volAttempts level
              (decide (level ≤ 2))).source
            (analyzeCompetition env keyword location category level (decide (level ≤ 2))
              stats adResult).data_source) := by
  constructor
  · intro vs cs
    refine ⟨?_, ?_, ?_, ?_⟩
    · by_cases h : sourcePriority vs < sourcePriority cs
      · rw [finalDataSource, if_pos h, min_eq_left h.le]
      · rw [finalDataSource, if_neg h, min_eq_right (not_lt.mp h)]
    · intro h; rw [finalDataSource, if_pos h]
    · intro h; rw [finalDataSource, if_neg (not_lt.mpr h)]
    · by_cases h1 : sourcePriority vs < sourcePriority cs <;>
        by_cases h2 : sourcePriority cs < sourcePriority vs
      · exact absurd h2 (lt_asymm h1)
      · simp [finalDataSource, h1, h2]
      · simp [finalDataSource, h1, h2]
      · simp [finalDataSource, h1, h2, le_antisymm (not_lt.mp h2) (not_lt.mp h1)]
  · intro env keyword level location category volCache volAttempts stats adResult
    rfl

/-- Witness for `c1_grade_arbitration` at concrete labels. -/
theorem c1_grade_arbitration_witness :
    sourcePriority "estimated" < sourcePriority "api" ∧
    finalDataSource "estimated" "api" = "estimated" ∧
    sourcePriority "api" ≤ sourcePriority "api" ∧
    finalDataSource "api" "api" = "api" :=
  ⟨by decide, (c1_grade_arbitration.1 "estimated" "api").2.1 (by decide),
   by decide, (c1_grade_arbitration.1 "api" "api").2.2.1 (by decide)⟩

/-! ## Claim C2 -/

/-- C2 (code bug): per-phrase assembly is total in the embedding — at a
concrete phrase with every external source failing, `analyze_keyword` returns
a complete metrics record — but roadmap generation never returns a phase list:
every `StrategyPhase(...)` call in strategy_planner.py omits the required
`expected_daily_visitors` field, so both the dynamic path (non-empty keyword
batch) and the legacy path raise TypeError to the caller. -/
theorem c2_roadmap_raises :
    analyzeKeyword env0 "강남역 브런치 카페" 4 "서울 강남구" "카페" none noApiAttempts
        none none =
      ⟨"강남역 브런치 카페", 4, 350, 18, 0, 17, "Top 5", "1개월", 0, 3/250, "estimated",
       .noneTag, .noneTag⟩ ∧
    generateRoadmap 50 200 [kmLongtail] none
      = .error (.typeError "expected_daily_visitors") ∧
    generateRoadmap 50 200 [] none
      = .error (.typeError "expected_daily_visitors") := by
  refine ⟨?_, rfl, rfl⟩
  have hpop : get_region_population false none "서울 강남구"
      = (560000, "population_db") := rfl
  have hefp : estimateFromPopulation env0 "서울 강남구" "카페" = (7000, "estimated") := by
    rw [Prod.ext_iff]
    constructor
    · simp only [estimateFromPopulation, hpop, env0]
      norm_num [pyInt]
    · rfl
  have hvol : estimateMonthlySearches env0 "서울 강남구" "카페" none noApiAttempts 4
      (decide ((4:ℤ) ≤ 2)) = ⟨7000, .noneTag, .noneTag, "estimated"⟩ := by
    rw [show decide ((4:ℤ) ≤ 2) = false from rfl, estimateMonthlySearches]
    simp [hefp]
  have hwcount : wordCount "강남역 브런치 카페" = 3 := rfl
  have hadj : adjustCompetitionByKeyword 30 "강남역 브런치 카페" 4 = 18 := by
    rw [adjustCompetitionByKeyword, show levelReduction 4 = 40/100 from rfl,
        show wordFactor "강남역 브런치 카페" = 1 from by rw [wordFactor, hwcount]; norm_num]
    norm_num [pyInt, max_def, min_def]
  have hec : estimateCompetition env0 "서울 강남구" "카페" = (30, "estimated") := by
    rw [estimateCompetition, if_neg (by decide : ¬("서울 강남구" = ""))]
    simp [env0, hpop]
  have hcomp : analyzeCompetition env0 "강남역 브런치 카페" "서울 강남구" "카페" 4
      (decide ((4:ℤ) ≤ 2)) none none = ⟨0, 18, some "낮음", "estimated"⟩ := by
    rw [show decide ((4:ℤ) ≤ 2) = false from rfl, analyzeCompetition]
    simp [hec, hadj, ite_self, scoreToLevel]
  have happly : applyLevelMultiplier 7000 4 = 350 := by
    rw [applyLevelMultiplier, show levelMultiplier 4 = 5/100 from rfl]
    norm_num [pyInt]
  have hdiff : calculateDifficultyScore 18 4 350 = 17 := by
    rw [calculateDifficultyScore]
    norm_num [pyInt, max_def, min_def]
  rw [analyzeKeyword, hvol, hcomp]
  simp [happly, hdiff, getRankTarget, env0, finalDataSource, sourcePriority,
    KeywordMetrics.mk.injEq]
  norm_num [pyInt]

/-! ## Claim C3 -/

/-- C3 (code bug): on a non-empty batch with levels in 1..5 the dynamic
roadmap emits no phase at all — the first populated tier reaches the
`StrategyPhase(...)` construction at strategy_planner.py:150, which raises
TypeError for the missing required `expected_daily_visitors` argument, and the
running `cumulative_traffic` sum the loop computes is dropped without ever
being stored in a phase. -/
theorem c3_dynamic_roadmap_raises :
    generateDynamicRoadmap 150 [kmA, kmB] none
      = .error (.typeError "expected_daily_visitors") := rfl

/-! ## Claim C4 -/

/-- C4 counterexample: a four-word tier-1 phrase with every external source
failing gets competition score 76 — the word-count reduction is applied on top
of the fixed base 85 — not the exact 85 the claim states. -/
theorem c4_counterexample :
    (analyzeKeyword env0 "강남 맛집 추천 목록" 1 "서울 강남구" "카페" none noApiAttempts
        none none).competition_score = 76 ∧ (76 : ℤ) ≠ 85 := by
  have hw : wordCount "강남 맛집 추천 목록" = 4 := rfl
  constructor
  · show (analyzeCompetition env0 "강남 맛집 추천 목록" "서울 강남구" "카페" 1
        (decide ((1:ℤ) ≤ 2)) none none).competition_score = 76
    rw [show decide ((1:ℤ) ≤ 2) = true from rfl]
    simp only [analyzeCompetition_level1_fallback]
    rw [adjust85_level1, hw]
    norm_num
  · decide

/-- C4 (amended): for a tier-1 phrase whose forced ad-API lookups all fail and
with no regional statistics row, the metrics record has volume exactly 10,000
with pc/mobile marked "Fail", final source label "restaurant_stats_fallback",
and competition score int(85·w) where w is the word-count factor — 85 for
fewer than four words, 76 for four or five, 72 for six or more — independent
of the location and category but not of the phrase text. -/
theorem c4_tier1_fallback :
    ∀ (env : Env) (keyword location category : String)
      (volCache : Option ApiData) (volAttempts : ℕ → ApiAttempt),
      getFromApi volCache volAttempts true = none →
      (analyzeKeyword env keyword 1 location category volCache volAttempts
          none none).estimated_monthly_searches = 10000 ∧
      (analyzeKeyword env keyword 1 location category volCache volAttempts
          none none).data_source = "restaurant_stats_fallback" ∧
      (analyzeKeyword env keyword 1 location category volCache volAttempts
          none none).monthly_pc_searches = .failTag ∧
      (analyzeKeyword env keyword 1 location category volCache volAttempts
          none none).monthly_mobile_searches = .failTag ∧
      (analyzeKeyword env keyword 1 location category volCache volAttempts
          none none).competition_score =
        (if wordCount keyword ≥ 6 then 72 else if wordCount keyword ≥ 4 then 76 else 85) := by
  intro env keyword location category volCache volAttempts h
  have hvol := estimateMonthlySearches_apiFail_level1 env location category volCache volAttempts h
  have happly : applyLevelMultiplier 10000 1 = 10000 := by
    rw [applyLevelMultiplier, show levelMultiplier 1 = 1 from rfl]
    norm_num [pyInt]
  refine ⟨?_, ?_, ?_, ?_, ?_⟩
  · show applyLevelMultiplier (estimateMonthlySearches env location category volCache
        volAttempts 1 (decide ((1:ℤ) ≤ 2))).total 1 = 10000
    rw [show decide ((1:ℤ) ≤ 2) = true from rfl, hvol]
    exact happly
  · show finalDataSource (estimateMonthlySearches env location category volCache
        volAttempts 1 (decide ((1:ℤ) ≤ 2))).source
      (analyzeCompetition env keyword location category 1 (decide ((1:ℤ) ≤ 2))
        none none).data_source = "restaurant_stats_fallback"
    rw [show decide ((1:ℤ) ≤ 2) = true from rfl, hvol,
      analyzeCompetition_level1_fallback]
    rfl
  · show (estimateMonthlySearches env location category volCache volAttempts 1
        (decide ((1:ℤ) ≤ 2))).pc = PMField.failTag
    rw [show decide ((1:ℤ) ≤ 2) = true from rfl, hvol]
  · show (estimateMonthlySearches env location category volCache volAttempts 1
        (decide ((1:ℤ) ≤ 2))).mobile = PMField.failTag
    rw [show decide ((1:ℤ) ≤ 2) = true from rfl, hvol]
  · show (analyzeCompetition env keyword location category 1 (decide ((1:ℤ) ≤ 2))
        none none).competition_score = _
    rw [show decide ((1:ℤ) ≤ 2) = true from rfl]
    simp only [analyzeCompetition_level1_fallback]
    exact adjust85_level1 keyword

/-- Witness for `c4_tier1_fallback` at a concrete phrase and location. -/
theorem c4_tier1_fallback_witness :
    getFromApi none noApiAttempts true = none ∧
    (analyzeKeyword env0 "맛집" 1 "부산 해운대구" "카페" none noApiAttempts
        none none).estimated_monthly_searches = 10000 ∧
    (analyzeKeyword env0 "맛집" 1 "부산 해운대구" "카페" none noApiAttempts
        none none).data_source = "restaurant_stats_fallback" ∧
    (analyzeKeyword env0 "맛집" 1 "부산 해운대구" "카페" none noApiAttempts
        none none).competition_score =
      (if wordCount "맛집" ≥ 6 then 72 else if wordCount "맛집" ≥ 4 then 76 else 85) :=
  ⟨rfl,
   (c4_tier1_fallback env0 "맛집" "부산 해운대구" "카페" none noApiAttempts rfl).1,
   (c4_tier1_fallback env0 "맛집" "부산 해운대구" "카페" none noApiAttempts rfl).2.1,
   (c4_tier1_fallback env0 "맛집" "부산 해운대구" "카페" none noApiAttempts rfl).2.2.2.2⟩

/-! ## Claim C5 -/

/-- C5 counterexample: at tier 3 the engine passes forceApi = (3 ≤ 2) = false,
so the volume estimator makes zero ad-API calls — not the exactly one attempt
the claim states for tiers 3-5. -/
theorem c5_counterexample :
    estimateMonthlySearchesCalls none noApiAttempts (decide ((3:ℤ) ≤ 2)) = 0 ∧
    (0 : ℕ) ≠ 1 := ⟨rfl, by decide⟩

/-- C5 (amended): with forceApi = (level ≤ 2) as the engine passes it and an
uncached keyword, tiers 3-5 never consult the ad API (zero calls) and use the
population estimate directly; tiers 1-2 make one call when the first attempt
succeeds and two otherwise, return the parsed API row on success, and fall
back — to the fixed 10,000 floor at tier 1, to the population formula at
tier 2 — exactly when the API produced nothing usable. -/
theorem c5_api_consultation :
    ∀ (env : Env) (location category : String) (attempts : ℕ → ApiAttempt) (level : ℤ),
      (3 ≤ level →
        estimateMonthlySearchesCalls none attempts (decide (level ≤ 2)) = 0 ∧
        estimateMonthlySearches env location category none attempts level
            (decide (level ≤ 2))
          = ⟨(estimateFromPopulation env location category).1, .noneTag, .noneTag,
             (estimateFromPopulation env location category).2⟩) ∧
      (level ≤ 2 →
        estimateMonthlySearchesCalls none attempts (decide (level ≤ 2))
          = (if (attempts 0).isOk then 1 else 2) ∧
        (∀ d, getFromApi none attempts true = some d →
          estimateMonthlySearches env location category none attempts level
              (decide (level ≤ 2))
            = ⟨d.pc + d.mobile, .num d.pc, .num d.mobile, "api"⟩) ∧
        (getFromApi none attempts true = none → level = 1 →
          estimateMonthlySearches env location category none attempts level
              (decide (level ≤ 2))
            = ⟨10000, .failTag, .failTag, "restaurant_stats_fallback"⟩) ∧
        (getFromApi none attempts true = none → level ≠ 1 →
          estimateMonthlySearches env location category none attempts level
              (decide (level ≤ 2))
            = ⟨(estimateFromPopulation env location category).1, .failTag, .failTag,
               (estimateFromPopulation env location category).2⟩)) := by
  intro env location category attempts level
  constructor
  · intro h3
    rw [decide_eq_false (by omega : ¬(level ≤ 2))]
    exact ⟨rfl, rfl⟩
  · intro h2
    rw [decide_eq_true h2]
    refine ⟨?_, ?_, ?_, ?_⟩
    · cases hA : attempts 0 <;>
        simp [estimateMonthlySearchesCalls, getFromApiCalls, ApiAttempt.isOk, hA]
    · intro d hd
      simp [estimateMonthlySearches, hd, ApiData.total]
    · intro hnone h1
      simp [estimateMonthlySearches, hnone, h1]
    · intro hnone h1
      simp [estimateMonthlySearches, hnone, h1]

/-- Witness for `c5_api_consultation` at tiers 4 and 1. -/
theorem c5_api_consultation_witness :
    estimateMonthlySearchesCalls none noApiAttempts (decide ((4:ℤ) ≤ 2)) = 0 ∧
    estimateMonthlySearchesCalls none noApiAttempts (decide ((1:ℤ) ≤ 2))
      = (if (noApiAttempts 0).isOk then 1 else 2) ∧
    estimateMonthlySearches env0 "서울 강남구" "카페" none noApiAttempts 1
        (decide ((1:ℤ) ≤ 2))
      = ⟨10000, .failTag, .failTag, "restaurant_stats_fallback"⟩ :=
  ⟨((c5_api_consultation env0 "서울 강남구" "카페" noApiAttempts 4).1 (by norm_num)).1,
   ((c5_api_consultation env0 "서울 강남구" "카페" noApiAttempts 1).2 (by norm_num)).1,
   ((c5_api_consultation env0 "서울 강남구" "카페" noApiAttempts 1).2 (by norm_num)).2.2.1
     rfl rfl⟩

/-! ## Claim C6 -/

/-- C6 counterexample: at base score 0 the adjusted score is clamped up to the
floor 5, which is strictly greater than the unadjusted base — the adjustment
is not always ≤ the base over the claimed range 0..100. -/
theorem c6_counterexample :
    adjustCompetitionByKeyword 0 "카페" 1 = 5 ∧ ¬((5:ℤ) ≤ 0) := by
  constructor
  · rw [adjustCompetitionByKeyword, show levelReduction 1 = 0 from rfl,
        show wordFactor "카페" = 1 from rfl]
    norm_num [pyInt, max_def, min_def]
  · decide

/-- C6 (amended): for every base score in 0..100, keyword and level, the
adjusted competition score always lies in [5,100]; it is ≤ the unadjusted base
whenever the base is at least the lower clamp bound 5 (for base < 5 the clamp
raises the result to 5, above the base). -/
theorem c6_adjust_bounds :
    ∀ (base : ℤ) (keyword : String) (level : ℤ),
      0 ≤ base → base ≤ 100 →
      (5 ≤ base → adjustCompetitionByKeyword base keyword level ≤ base) ∧
      5 ≤ adjustCompetitionByKeyword base keyword level ∧
      adjustCompetitionByKeyword base keyword level ≤ 100 := by
  intro base keyword level h0 _h100
  have hred0 := levelReduction_nonneg level
  have hred1 := levelReduction_le_one level
  have hwf0 := wordFactor_nonneg keyword
  have hwf1 := wordFactor_le_one keyword
  have hb0 : (0:ℚ) ≤ (base:ℚ) := by exact_mod_cast h0
  have hq0 : 0 ≤ (base : ℚ) * (1 - levelReduction level) * wordFactor keyword :=
    mul_nonneg (mul_nonneg hb0 (by linarith)) hwf0
  have hqb : (base : ℚ) * (1 - levelReduction level) * wordFactor keyword ≤ (base:ℚ) := by
    calc (base : ℚ) * (1 - levelReduction level) * wordFactor keyword
        ≤ (base : ℚ) * (1 - levelReduction level) * 1 :=
          mul_le_mul_of_nonneg_left hwf1 (mul_nonneg hb0 (by linarith))
      _ = (base : ℚ) * (1 - levelReduction level) := by ring
      _ ≤ (base : ℚ) * 1 := mul_le_mul_of_nonneg_left (by linarith) hb0
      _ = (base : ℚ) := by ring
  have hfl : ⌊(base : ℚ) * (1 - levelReduction level) * wordFactor keyword⌋ ≤ base := by
    have := Int.floor_le_floor hqb
    simpa using this
  have ha : adjustCompetitionByKeyword base keyword level
      = max 5 (min 100 ⌊(base : ℚ) * (1 - levelReduction level) * wordFactor keyword⌋) := by
    rw [adjustCompetitionByKeyword, pyInt_of_nonneg hq0]
  rw [ha]
  refine ⟨?_, le_max_left _ _, max_le (by norm_num) (min_le_left _ _)⟩
  intro h5
  exact max_le h5 ((min_le_right _ _).trans hfl)

/-- Witness for `c6_adjust_bounds` at a concrete base, keyword and level. -/
theorem c6_adjust_bounds_witness :
    (0:ℤ) ≤ 70 ∧ (70:ℤ) ≤ 100 ∧ (5:ℤ) ≤ 70 ∧
    adjustCompetitionByKeyword 70 "강남 카페" 3 ≤ 70 ∧
    5 ≤ adjustCompetitionByKeyword 70 "강남 카페" 3 ∧
    adjustCompetitionByKeyword 70 "강남 카페" 3 ≤ 100 :=
  ⟨by decide, by decide, by decide,
   (c6_adjust_bounds 70 "강남 카페" 3 (by decide) (by decide)).1 (by decide),
   (c6_adjust_bounds 70 "강남 카페" 3 (by decide) (by decide)).2.1,
   (c6_adjust_bounds 70 "강남 카페" 3 (by decide) (by decide)).2.2⟩

/-! ## Claim C7 -/

/-- C7 counterexample: at competition 1, tier 5, volume 0 the code returns 0
while the spec's clamp formula evaluates to 3/5 — the code truncates the
weighted sum to an integer before clamping, so it is not exactly the clamp
formula. -/
theorem c7_counterexample :
    calculateDifficultyScore 1 5 0 = 0 ∧
    specDifficultyFormula 1 5 0 = 3/5 ∧
    ((calculateDifficultyScore 1 5 0 : ℤ) : ℚ) ≠ specDifficultyFormula 1 5 0 := by
  have h1 : calculateDifficultyScore 1 5 0 = 0 := by
    rw [calculateDifficultyScore]
    norm_num [pyInt, max_def, min_def]
  have h2 : specDifficultyFormula 1 5 0 = 3/5 := by
    rw [specDifficultyFormula]
    norm_num [max_def, min_def]
  refine ⟨h1, h2, ?_⟩
  rw [h1, h2]
  norm_num

/-- C7 (amended): the difficulty scorer is the integer floor of the spec's
clamped formula: for all integer inputs,
`calculate_difficulty_score c t v = ⌊clamp(c·0.6 + (100 - t·20)·0.3 +
min(100, v/10000·100)·0.1, 0, 100)⌋` — equal to the spec's formula except for
the final truncation to an integer. -/
theorem c7_difficulty_formula :
    ∀ c t v : ℤ,
      calculateDifficultyScore c t v = ⌊specDifficultyFormula (c:ℚ) (t:ℚ) (v:ℚ)⌋ := by
  intro c t v
  show min 100 (max 0 (pyInt ((c:ℚ) * (6/10) + ((100 - t * 20 : ℤ) : ℚ) * (3/10)
      + (min 100 ((v:ℚ)/10000*100)) * (1/10))))
    = ⌊min 100 (max 0 ((c:ℚ) * (6/10) + (100 - (t:ℚ) * 20) * (3/10)
      + (min 100 ((v:ℚ)/10000*100)) * (1/10)))⌋
  rw [show ((100 - t * 20 : ℤ) : ℚ) = 100 - (t:ℚ) * 20 by push_cast; ring]
  set x : ℚ := (c:ℚ) * (6/10) + (100 - (t:ℚ) * 20) * (3/10)
    + (min 100 ((v:ℚ)/10000*100)) * (1/10) with hx
  rcases le_or_lt 0 x with hx0 | hx0
  · rw [pyInt_of_nonneg hx0]
    have hfl0 : (0:ℤ) ≤ ⌊x⌋ := Int.le_floor.mpr (by exact_mod_cast hx0)
    rw [max_eq_right hx0, max_eq_right hfl0]
    rcases le_or_lt x 100 with h100 | h100
    · have hfl100 : ⌊x⌋ ≤ (100:ℤ) := by
        have := Int.floor_le_floor h100
        simpa using this
      rw [min_eq_right h100, min_eq_right hfl100]
    · have hfl100 : (100:ℤ) ≤ ⌊x⌋ := Int.le_floor.mpr (by exact_mod_cast h100.le)
      rw [min_eq_left h100.le, min_eq_left hfl100]
      norm_num
  · rw [pyInt, if_neg (not_le.mpr hx0)]
    have hc : ⌈x⌉ ≤ (0:ℤ) := Int.ceil_le.mpr (by exact_mod_cast hx0.le)
    rw [max_eq_left hc, max_eq_left hx0.le]
    norm_num [min_def]

/-! ## Claim C8 -/

/-- C8: the priority-keyword selection returns at most five keywords, all
drawn from the input, in non-increasing ROI order (traffic / max(difficulty,
1), doubled for a phrase containing the truthy differentiator); and on the
claim's concrete example — two tier-3 phrases with traffic 40/10 and
difficulty 20/50, hence ROI 2.0 and 0.2 — the first is ranked first with no
differentiator at all. -/
theorem c8_priority_selection :
    (∀ (kws : List KeywordMetrics) (specialty : Option String),
      (selectPriorityKeywords kws 5 specialty).length ≤ 5 ∧
      (∀ k, k ∈ selectPriorityKeywords kws 5 specialty → k ∈ kws) ∧
      (selectPriorityKeywords kws 5 specialty).Chain'
        (fun a b => roiScore specialty b ≤ roiScore specialty a)) ∧
    roiScore none kmA = 2 ∧ roiScore none kmB = 1/5 ∧
    selectPriorityKeywords [kmA, kmB] 5 none = [kmA, kmB] := by
  have hA : roiScore none kmA = 2 := by
    simp only [roiScore, kmA]
    norm_num [max_def]
  have hB : roiScore none kmB = 1/5 := by
    simp only [roiScore, kmB]
    norm_num [max_def]
  refine ⟨?_, hA, hB, ?_⟩
  · intro kws specialty
    refine ⟨?_, ?_, ?_⟩
    · simp only [selectPriorityKeywords, List.length_map, List.length_take]
      exact min_le_left _ _
    · intro k hk
      simp only [selectPriorityKeywords, List.mem_map] at hk
      obtain ⟨p, hp, hpk⟩ := hk
      have hp2 : p ∈ List.insertionSort scoredDescOrder
          (kws.map fun kw => (kw, roiScore specialty kw)) := List.mem_of_mem_take hp
      have hp3 := (List.perm_insertionSort scoredDescOrder _).mem_iff.mp hp2
      simp only [List.mem_map] at hp3
      obtain ⟨kw, hkw, hkwp⟩ := hp3
      subst hpk
      rw [← hkwp]
      exact hkw
    · have hsorted : (List.insertionSort scoredDescOrder
          (kws.map fun kw => (kw, roiScore specialty kw))).Pairwise scoredDescOrder :=
        List.sorted_insertionSort scoredDescOrder _
      have htake := hsorted.sublist (List.take_sublist 5 _)
      have hmem : ∀ p ∈ (List.insertionSort scoredDescOrder
          (kws.map fun kw => (kw, roiScore specialty kw))).take 5,
          p.2 = roiScore specialty p.1 := by
        intro p hp
        have hp2 := (List.perm_insertionSort scoredDescOrder _).mem_iff.mp
          (List.mem_of_mem_take hp)
        simp only [List.mem_map] at hp2
        obtain ⟨kw, _, hkwp⟩ := hp2
        rw [← hkwp]
      have hpair : ((List.insertionSort scoredDescOrder
          (kws.map fun kw => (kw, roiScore specialty kw))).take 5).Pairwise
          (fun a b => roiScore specialty b.1 ≤ roiScore specialty a.1) := by
        refine htake.imp_of_mem ?_
        intro a b ha hb hab
        rw [← hmem a ha, ← hmem b hb]
        exact hab
      simp only [selectPriorityKeywords]
      rw [List.chain'_map]
      exact hpair.chain'
  · have hord : scoredDescOrder (kmA, roiScore none kmA) (kmB, roiScore none kmB) := by
      show roiScore none kmB ≤ roiScore none kmA
      rw [hA, hB]
      norm_num
    simp only [selectPriorityKeywords, List.map]
    simp only [List.insertionSort, List.orderedInsert]
    rw [if_pos hord]
    rfl

/-- Witness for `c8_priority_selection` at the concrete two-keyword batch. -/
theorem c8_priority_selection_witness :
    kmA ∈ selectPriorityKeywords [kmA, kmB] 5 none ∧ kmA ∈ [kmA, kmB] := by
  have hsel := c8_priority_selection.2.2.2
  constructor
  · rw [hsel]
    exact List.mem_cons_self _ _
  · refine (c8_priority_selection.1 [kmA, kmB] none).2.1 kmA ?_
    rw [hsel]
    exact List.mem_cons_self _ _

/-! ## Claim C9 -/

/-- C9: the population resolver is total and follows the three-step chain:
the curated-table population when the location is listed; else, when a
registry credential is configured and the registry call produced a value, that
value; else — a missing credential or a failed registry call (every network
failure, malformed response or non-success result code is returned as `None`
by `get_population`) — the fixed 300,000 tagged "population_estimated". -/
theorem c9_population_resolver :
    ∀ (region : String) (conf : Bool) (apiResult : Option ℤ),
      (∀ p, DEFAULT_POPULATION.lookup region = some p →
        get_region_population conf apiResult region = (p, "population_db")) ∧
      (DEFAULT_POPULATION.lookup region = none → conf = true →
        ∀ p, apiResult = some p →
          get_region_population conf apiResult region = (p, "population_api")) ∧
      (DEFAULT_POPULATION.lookup region = none → conf = false ∨ apiResult = none →
        get_region_population conf apiResult region = (300000, "population_estimated")) := by
  intro region conf apiResult
  refine ⟨?_, ?_, ?_⟩
  · intro p hp
    rw [get_region_population.eq_def, hp]
  · intro hnone hconf p hp
    rw [get_region_population.eq_def, hnone, hconf, hp]
    rfl
  · intro hnone hmiss
    rw [get_region_population.eq_def, hnone]
    rcases hmiss with h | h
    · rw [h]
      rfl
    · rw [h]
      cases conf <;> rfl

/-- Witness for `c9_population_resolver` at a listed and an unlisted region. -/
theorem c9_population_resolver_witness :
    DEFAULT_POPULATION.lookup "서울 강남구" = some 560000 ∧
    get_region_population false none "서울 강남구" = (560000, "population_db") ∧
    DEFAULT_POPULATION.lookup "서울 미지구" = none ∧
    get_region_population false none "서울 미지구" = (300000, "population_estimated") :=
  ⟨rfl, (c9_population_resolver "서울 강남구" false none).1 560000 rfl,
   rfl, (c9_population_resolver "서울 미지구" false none).2.2 rfl (Or.inl rfl)⟩

/-! ## Claim C10 -/

/-- C10: the population-derived grade of both the volume and the competition
estimators is always "estimated" or "estimated_c": the resolver returns the
tag "population_estimated" only together with the fixed population 300,000,
whose band (200,000-500,000) grades to "estimated_c", so the finer grades
estimated_b, estimated_d, estimated_e and estimated_f are unreachable. -/
theorem c10_estimated_grades :
    ∀ (env : Env) (location category : String),
      ((estimateFromPopulation env location category).2 = "estimated" ∨
       (estimateFromPopulation env location category).2 = "estimated_c") ∧
      ((estimateCompetition env location category).2 = "estimated" ∨
       (estimateCompetition env location category).2 = "estimated_c") ∧
      (∀ (conf : Bool) (res : Option ℤ) (region : String),
        (get_region_population conf res region).2 = "population_estimated" →
          (get_region_population conf res region).1 = 300000) ∧
      get_population_grade 300000 = "estimated_c" := by
  intro env location category
  refine ⟨?_, ?_, pop_estimated_forces_default, rfl⟩
  · by_cases h : (get_region_population env.moisConfigured env.moisResult location).2
        = "population_estimated"
    · right
      show (if (get_region_population env.moisConfigured env.moisResult location).2
            = "population_estimated"
          then get_population_grade
            (get_region_population env.moisConfigured env.moisResult location).1
          else "estimated") = "estimated_c"
      rw [if_pos h, pop_estimated_forces_default _ _ _ h]
      rfl
    · left
      show (if (get_region_population env.moisConfigured env.moisResult location).2
            = "population_estimated"
          then get_population_grade
            (get_region_population env.moisConfigured env.moisResult location).1
          else "estimated") = "estimated"
      rw [if_neg h]
  · by_cases hloc : location = ""
    · left
      have he : estimateCompetition env location category = (50, "estimated") := by
        rw [estimateCompetition, if_pos hloc]
      rw [he]
    · by_cases h : (get_region_population env.moisConfigured env.moisResult location).2
          = "population_estimated"
      · right
        rw [estimateCompetition, if_neg hloc]
        show (if (get_region_population env.moisConfigured env.moisResult location).2
              = "population_estimated"
            then get_population_grade
              (get_region_population env.moisConfigured env.moisResult location).1
            else "estimated") = "estimated_c"
        rw [if_pos h, pop_estimated_forces_default _ _ _ h]
        rfl
      · left
        rw [estimateCompetition, if_neg hloc]
        show (if (get_region_population env.moisConfigured env.moisResult location).2
              = "population_estimated"
            then get_population_grade
              (get_region_population env.moisConfigured env.moisResult location).1
            else "estimated") = "estimated"
        rw [if_neg h]

/-- Witness for `c10_estimated_grades` at an unlisted region with no
credential, where the resolver does return the estimated tag. -/
theorem c10_estimated_grades_witness :
    ((estimateFromPopulation env0 "서울 미지구" "카페").2 = "estimated" ∨
     (estimateFromPopulation env0 "서울 미지구" "카페").2 = "estimated_c") ∧
    (get_region_population false none "서울 미지구").2 = "population_estimated" ∧
    (get_region_population false none "서울 미지구").1 = 300000 :=
  ⟨(c10_estimated_grades env0 "서울 미지구" "카페").1,
   rfl,
   (c10_estimated_grades env0 "서울 미지구" "카페").2.2.1 false none "서울 미지구" rfl⟩

end NPO
